import Mathlib

/-!
Shallow embedding of the payment-checkout glue functions of this repository:

* `scripts/netlify-dns-stripe-pay.mjs` — the DNS record upsert tool
  (`redactValue`, `upsertRecord`, and the record-application phase of `main`);
* the session fetcher (first handler of `src/unnamed/part_000`);
* the tiered session creator (second handler of `src/unnamed/part_000`);
* the paid-confirmation relay (first handler of `src/unnamed/part_001`);
* the legacy session creator (second handler of `src/unnamed/part_001`).

Remote HTTP calls are modelled as oracle inputs (the fetched DNS record
lists, the fetched checkout session) and as recorded outputs (the list of
API calls a run issues, the parameters of the outbound checkout request,
the form post the relay forwards).  JavaScript string truthiness
(`x || y` treating the empty string and `undefined` as falsy) is modelled
by `strOr` / `jsOr` over `Option String`.
-/

/-- Models the JavaScript expression `String(x || d)` where `x` is a
string-or-undefined value: `undefined` and the empty string are falsy. -/
def strOr (x : Option String) (d : String) : String :=
  match x with
  | some s => if s = "" then d else s
  | none => d

/-- Models JavaScript truthiness of a string-or-undefined value:
`some ""` and `none` are both falsy. -/
def truthy (x : Option String) : Option String :=
  match x with
  | some s => if s = "" then none else some s
  | none => none

/-- Models the JavaScript expression `x || y` on string-or-undefined
values: the first truthy operand, otherwise `none`. -/
def jsOr (x y : Option String) : Option String :=
  match truthy x with
  | some s => some s
  | none => truthy y

/-- The platform builtin `s.toUpperCase()`, over the character list. -/
def toUpperStr (s : String) : String :=
  String.mk (s.data.map Char.toUpper)

/-- The platform builtin `s.toLowerCase()`, over the character list. -/
def toLowerStr (s : String) : String :=
  String.mk (s.data.map Char.toLower)

/-- The platform builtin `s.trim()`: strip leading and trailing whitespace. -/
def trimStr (s : String) : String :=
  String.mk (((s.data.dropWhile Char.isWhitespace).reverse.dropWhile Char.isWhitespace).reverse)

/-- The regex test `/^price_/.test(s)`. -/
def startsWithStr (s p : String) : Bool :=
  p.data.isPrefixOf s.data

/- ------------------------------------------------------------------ -/
/- DNS upsert tool: scripts/netlify-dns-stripe-pay.mjs                 -/
/- ------------------------------------------------------------------ -/

/-- An existing DNS record as returned by the provider's list endpoint. -/
structure ExistingRecord where
  id : String
  type : String
  hostname : String
  value : String
  deriving Repr, DecidableEq

/-- A desired DNS record, as built in `main` from CLI flags. -/
structure DesiredRecord where
  type : String
  hostname : String
  value : String
  ttl : Nat
  deriving Repr, DecidableEq

/-- An API call the DNS tool issues against the provider. -/
inductive ApiCall where
  | listRecords
  | deleteRecord (id : String)
  | createRecord (r : DesiredRecord)
  deriving Repr, DecidableEq

/-- Whether an API call mutates provider state (create or delete). -/
def isMutating : ApiCall → Bool
  | ApiCall.listRecords => false
  | ApiCall.deleteRecord _ => true
  | ApiCall.createRecord _ => true

/-- Source `redactValue`: a TXT value is replaced by the redaction
placeholder; other values pass through. -/
def redactValue (type value : String) : String :=
  if type = "TXT" then "(redacted)" else value

/-- The `matches` filter of `upsertRecord`: existing records whose
upper-cased type and hostname equal the desired record's. -/
def matchesOf (existing : List ExistingRecord) (d : DesiredRecord) : List ExistingRecord :=
  existing.filter (fun r => toUpperStr r.type = d.type && r.hostname = d.hostname)

/-- The `matches.some(record => String(record.value) === desiredValue)`
check of `upsertRecord`. -/
def hasValueMatch (existing : List ExistingRecord) (d : DesiredRecord) : Bool :=
  (matchesOf existing d).any (fun r => r.value = d.value)

/-- Outcome of one `upsertRecord` invocation: the API calls it issued (the
initial record-list fetch included), its stdout and stderr lines, and the
exit code it assigned to the process, if any. -/
structure UpsertResult where
  calls : List ApiCall
  logs : List String
  errs : List String
  exitCode : Option Nat
  deriving Repr, DecidableEq

/-- Source `upsertRecord`: fetch the zone's records, filter to records
matching the desired (type, hostname); no-op if any match already has the
desired value; block with exit code 2 on a conflict without `--force`;
delete all matches then create when forced; otherwise just create. -/
def upsertRecord (existing : List ExistingRecord) (d : DesiredRecord) (force : Bool) : UpsertResult :=
  if hasValueMatch existing d then
    { calls := [ApiCall.listRecords]
      logs := ["OK: " ++ d.type ++ " " ++ d.hostname ++ " already set to " ++ redactValue d.type d.value]
      errs := []
      exitCode := none }
  else if (matchesOf existing d).length > 0 && !force then
    { calls := [ApiCall.listRecords]
      logs := []
      errs := ["Blocked: " ++ d.type ++ " " ++ d.hostname ++ " exists with a different value. Re-run with --force to replace it."]
      exitCode := some 2 }
  else if (matchesOf existing d).length > 0 && force then
    { calls := ApiCall.listRecords :: (matchesOf existing d).map (fun r => ApiCall.deleteRecord r.id) ++ [ApiCall.createRecord d]
      logs := ["Replaced: " ++ d.type ++ " " ++ d.hostname ++ " (existing records removed)",
               "Created: " ++ d.type ++ " " ++ d.hostname ++ " -> " ++ redactValue d.type d.value]
      errs := []
      exitCode := none }
  else
    { calls := [ApiCall.listRecords, ApiCall.createRecord d]
      logs := ["Created: " ++ d.type ++ " " ++ d.hostname ++ " -> " ++ redactValue d.type d.value]
      errs := []
      exitCode := none }

/-- Outcome of the record-application phase of `main`: all API calls of
the run, stdout and stderr in order, and the process exit code. -/
structure RunResult where
  calls : List ApiCall
  logs : List String
  errs : List String
  exit : Nat
  deriving Repr, DecidableEq

/-- The record-application phase of `main`: `upsertRecord` runs for the
CNAME record and then, regardless of the first outcome, for the TXT
record.  Each invocation fetches the zone's records anew, so the two
fetched lists are separate oracle inputs.  The final exit code is the
last assignment to `process.exitCode`, defaulting to 0. -/
def runUpsert (force : Bool) (existingC existingT : List ExistingRecord) (cname txt : DesiredRecord) : RunResult :=
  let r1 := upsertRecord existingC cname force
  let r2 := upsertRecord existingT txt force
  { calls := r1.calls ++ r2.calls
    logs := r1.logs ++ r2.logs
    errs := r1.errs ++ r2.errs
    exit := (r2.exitCode.getD (r1.exitCode.getD 0)) }

/-- The mutating (create or delete) calls of a run. -/
def mutatingCalls (r : RunResult) : List ApiCall :=
  r.calls.filter isMutating

/- ------------------------------------------------------------------ -/
/- Shared HTTP handler model                                           -/
/- ------------------------------------------------------------------ -/

/-- Request headers relevant to `getOrigin`. -/
structure Headers where
  origin : Option String := none
  referer : Option String := none
  referrer : Option String := none
  deriving Repr, DecidableEq

/-- Source `getOrigin`: the `origin` header if truthy, else the origin of
the `referer`/`referrer` URL.  The platform builtin `new URL(ref).origin`
is modelled by the injected `parseOrigin` (`none` = the constructor
threw). -/
def getOrigin (parseOrigin : String → Option String) (h : Headers) : Option String :=
  match truthy h.origin with
  | some o => some o
  | none =>
    match jsOr h.referer h.referrer with
    | some ref => parseOrigin ref
    | none => none

/-- The request-ID test `/^VV-\d{4}-\d{5}$/.test(rid)`: literal `VV-`,
four digits, a hyphen, five digits, end of string. -/
def validRid (s : String) : Bool :=
  match s.toList with
  | ['V', 'V', '-', a, b, c, d, '-', e, f, g, h, i] =>
    a.isDigit && b.isDigit && c.isDigit && d.isDigit &&
    e.isDigit && f.isDigit && g.isDigit && h.isDigit && i.isDigit
  | _ => false

/-- UTF-8 byte sequence of a character, for percent-encoding. -/
def utf8Bytes (c : Char) : List Nat :=
  let n := c.toNat
  if n < 128 then [n]
  else if n < 2048 then [192 + n / 64, 128 + n % 64]
  else if n < 65536 then [224 + n / 4096, 128 + (n / 64) % 64, 128 + n % 64]
  else [240 + n / 262144, 128 + (n / 4096) % 64, 128 + (n / 64) % 64, 128 + n % 64]

/-- Upper-case hexadecimal digit. -/
def hexUpper (n : Nat) : Char :=
  if n < 10 then Char.ofNat (48 + n) else Char.ofNat (55 + n)

/-- A percent-encoded byte, upper-case hex. -/
def pctByte (b : Nat) : String :=
  "%" ++ String.singleton (hexUpper (b / 16)) ++ String.singleton (hexUpper (b % 16))

/-- Characters `encodeURIComponent` leaves untouched. -/
def uriUnreserved (c : Char) : Bool :=
  c.isAlphanum || c = '-' || c = '_' || c = '.' || c = '!' ||
    c = '~' || c = '*' || c = '\'' || c = '(' || c = ')'

/-- The platform builtin `encodeURIComponent`. -/
def encodeURIComponent (s : String) : String :=
  String.join (s.toList.map (fun c =>
    if uriUnreserved c then String.singleton c
    else String.join ((utf8Bytes c).map pctByte)))

/-- The platform builtin `parseInt(s, 10)`: skip leading whitespace, an
optional sign, then the longest decimal-digit run; `none` models NaN. -/
def takeDigitsVal : List Char → Nat → Nat
  | [], acc => acc
  | c :: rest, acc => if c.isDigit then takeDigitsVal rest (acc * 10 + (c.toNat - 48)) else acc

/-- Decimal value of a digit-led character list, `none` if no leading digit. -/
def parseDigits (cs : List Char) : Option Nat :=
  match cs with
  | c :: _ => if c.isDigit then some (takeDigitsVal cs 0) else none
  | [] => none

/-- `parseInt(s, 10)` over a string, `none` for NaN. -/
def parseIntJs (s : String) : Option Int :=
  match (trimStr s).toList with
  | '-' :: rest => (parseDigits rest).map (fun n => -(n : Int))
  | '+' :: rest => (parseDigits rest).map (fun n => (n : Int))
  | cs => (parseDigits cs).map (fun n => (n : Int))

/- ------------------------------------------------------------------ -/
/- Session creators (tiered: part_000; legacy: part_001)               -/
/- ------------------------------------------------------------------ -/

/-- JSON body of a session-creation request; `none` = field absent. -/
structure CreatorPayload where
  rid : Option String := none
  email : Option String := none
  service_level : Option String := none
  serviceLevel : Option String := none
  vehicle_tier : Option String := none
  vehicleTier : Option String := none
  deriving Repr, DecidableEq

/-- Environment variables read by the session creators.  `tieredPriceIds`
is the `JSON.parse` outcome of `STRIPE_TIERED_PRICE_IDS` (platform
builtin): `none` when the variable is unset, blank, or unparseable, and
map entries that are not strings are modelled as absent, exactly the
cases the source's `typeof` guard filters out. -/
structure CreatorEnv where
  stripeSecretKey : Option String := none
  stripePriceId : Option String := none
  checkoutMode : Option String := none
  enableTieredRaw : Option String := none
  tieredPriceIds : Option (String → String → Option String) := none
  unitAmountRaw : Option String := none
  currencyRaw : Option String := none
  productName : Option String := none
  productDescription : Option String := none
  url : Option String := none
  deployPrimeUrl : Option String := none

/-- An inbound session-creation request.  `body` is the `JSON.parse`
outcome of `event.body || "{}"`: `none` means the parse threw. -/
structure CreatorEvent where
  httpMethod : String
  headers : Headers
  body : Option CreatorPayload
  deriving Repr

/-- Result of a session creator, up to its single outbound API call:
either a response returned before any outbound call, or the outbound
checkout request's form parameters. -/
inductive CreateResult where
  | reject (statusCode : Nat) (errMsg : String)
  | checkout (params : List (String × String))
  deriving Repr, DecidableEq

/-- The status code of a response returned before any outbound call. -/
def rejectStatus : CreateResult → Option Nat
  | CreateResult.reject s _ => some s
  | CreateResult.checkout _ => none

/-- The regex `/^(0|false|no|off)$/i` disabling tiered pricing. -/
def isDisabledWord (s : String) : Bool :=
  toLowerStr s = "0" || toLowerStr s = "false" || toLowerStr s = "no" || toLowerStr s = "off"

/-- Source `PRICING_CENTS`: the static (vehicle tier, service level) to
cents table of the tiered session creator. -/
def PRICING_CENTS (tier service : String) : Option Nat :=
  if tier = "tier_a" then
    if service = "brief_remote" then some 12900
    else if service = "command_remote" then some 24900
    else if service = "verify_ppi_inperson" then some 29900
    else if service = "confirm_diag_inperson" then some 17900
    else none
  else if tier = "tier_b" then
    if service = "brief_remote" then some 16900
    else if service = "command_remote" then some 32900
    else if service = "verify_ppi_inperson" then some 39900
    else if service = "confirm_diag_inperson" then some 22900
    else none
  else none

/-- Source `SERVICE_NAMES`. -/
def SERVICE_NAMES (service : String) : Option String :=
  if service = "brief_remote" then some "VINvoyant Brief (Remote)"
  else if service = "command_remote" then some "VINvoyant Command (Remote)"
  else if service = "verify_ppi_inperson" then some "VINvoyant Verify (Mobile PPI)"
  else if service = "confirm_diag_inperson" then some "VINvoyant Confirm (Diag + Quote)"
  else none

/-- The tiered session creator (second handler of `src/unnamed/part_000`),
up to its outbound call to the payments API. -/
def tieredHandler (parseOrigin : String → Option String) (env : CreatorEnv) (ev : CreatorEvent) : CreateResult :=
  if ev.httpMethod ≠ "POST" then CreateResult.reject 405 "Method Not Allowed"
  else
    match truthy env.stripeSecretKey with
    | none => CreateResult.reject 500 "Missing STRIPE_SECRET_KEY in environment variables."
    | some _ =>
      let priceId := strOr env.stripePriceId ""
      let mode := strOr env.checkoutMode "payment"
      let enableTiered := !(isDisabledWord (strOr env.enableTieredRaw ""))
      let payload := ev.body.getD {}
      let rid := trimStr (strOr payload.rid "")
      let email := trimStr (strOr payload.email "")
      let serviceLevel := trimStr (strOr payload.service_level (strOr payload.serviceLevel ""))
      let vehicleTier := trimStr (strOr payload.vehicle_tier (strOr payload.vehicleTier ""))
      match jsOr (getOrigin parseOrigin ev.headers) (jsOr env.url env.deployPrimeUrl) with
      | none => CreateResult.reject 400 "Could not determine site origin."
      | some origin =>
        if rid = "" ∨ validRid rid = false then
          CreateResult.reject 400 "Invalid or missing Request ID."
        else
          let base := [("mode", mode),
              ("success_url", origin ++ "/paid.html?session_id=\x7bCHECKOUT_SESSION_ID\x7d&rid=" ++ encodeURIComponent rid),
              ("cancel_url", origin ++ "/#start?canceled=1&rid=" ++ encodeURIComponent rid),
              ("metadata[rid]", rid)]
            ++ (if serviceLevel ≠ "" then [("metadata[service_level]", serviceLevel)] else [])
            ++ (if vehicleTier ≠ "" then [("metadata[vehicle_tier]", vehicleTier)] else [])
            ++ [("client_reference_id", rid)]
            ++ (if email ≠ "" then [("customer_email", email)] else [])
          if enableTiered then
            if vehicleTier = "" ∨ serviceLevel = "" then
              CreateResult.reject 400 "Missing service/tier selection for tiered pricing."
            else
              let mapped := match env.tieredPriceIds with
                | some m => m vehicleTier serviceLevel
                | none => none
              let inlinePart : CreateResult :=
                match PRICING_CENTS vehicleTier serviceLevel with
                | some amount =>
                  if amount ≠ 0 then
                    CreateResult.checkout (base ++
                      [("line_items[0][price_data][currency]", "usd"),
                       ("line_items[0][price_data][unit_amount]", toString amount),
                       ("line_items[0][price_data][product_data][name]", strOr (SERVICE_NAMES serviceLevel) "VINvoyant Service"),
                       ("line_items[0][price_data][product_data][description]",
                         (if vehicleTier = "tier_b" then "Tier B — European/Exotic" else "Tier A — Import/Domestic")
                           ++ " • Request ID " ++ rid),
                       ("line_items[0][quantity]", "1")])
                  else CreateResult.reject 400 "Invalid or missing service/tier selection for tiered pricing."
                | none => CreateResult.reject 400 "Invalid or missing service/tier selection for tiered pricing."
              match mapped with
              | some p =>
                if startsWithStr p "price_" then
                  CreateResult.checkout (base ++
                    [("line_items[0][price]", p), ("line_items[0][quantity]", "1")])
                else inlinePart
              | none => inlinePart
          else if priceId ≠ "" then
            CreateResult.checkout (base ++
              [("line_items[0][price]", priceId), ("line_items[0][quantity]", "1")])
          else
            match parseIntJs (strOr env.unitAmountRaw "12900") with
            | none => CreateResult.reject 500 "Invalid UNIT_AMOUNT env var (must be cents, e.g. 12900)."
            | some amount =>
              if amount < 50 then
                CreateResult.reject 500 "Invalid UNIT_AMOUNT env var (must be cents, e.g. 12900)."
              else
                CreateResult.checkout (base ++
                  [("line_items[0][price_data][currency]", toLowerStr (strOr env.currencyRaw "usd")),
                   ("line_items[0][price_data][unit_amount]", toString amount),
                   ("line_items[0][price_data][product_data][name]", strOr env.productName "VINvoyant Brief (Legacy)"),
                   ("line_items[0][price_data][product_data][description]", strOr env.productDescription "Legacy fixed-price checkout (tiered pricing disabled)"),
                   ("line_items[0][quantity]", "1")])

/-- The legacy session creator (second handler of `src/unnamed/part_001`),
up to its outbound call to the payments API. -/
def legacyHandler (parseOrigin : String → Option String) (env : CreatorEnv) (ev : CreatorEvent) : CreateResult :=
  if ev.httpMethod ≠ "POST" then CreateResult.reject 405 "Method Not Allowed"
  else
    match truthy env.stripeSecretKey with
    | none => CreateResult.reject 500 "Missing STRIPE_SECRET_KEY in environment variables."
    | some _ =>
      let priceId := strOr env.stripePriceId ""
      let mode := strOr env.checkoutMode "payment"
      let payload := ev.body.getD {}
      let rid := trimStr (strOr payload.rid "")
      let email := trimStr (strOr payload.email "")
      match jsOr (getOrigin parseOrigin ev.headers) (jsOr env.url env.deployPrimeUrl) with
      | none => CreateResult.reject 400 "Could not determine site origin."
      | some origin =>
        if rid = "" ∨ validRid rid = false then
          CreateResult.reject 400 "Invalid or missing Request ID."
        else
          let base := [("mode", mode),
              ("success_url", origin ++ "/paid.html?session_id=\x7bCHECKOUT_SESSION_ID\x7d&rid=" ++ encodeURIComponent rid),
              ("cancel_url", origin ++ "/#start?canceled=1&rid=" ++ encodeURIComponent rid),
              ("metadata[rid]", rid),
              ("client_reference_id", rid)]
            ++ (if email ≠ "" then [("customer_email", email)] else [])
          if priceId ≠ "" then
            CreateResult.checkout (base ++
              [("line_items[0][price]", priceId), ("line_items[0][quantity]", "1")])
          else
            match parseIntJs (strOr env.unitAmountRaw "9900") with
            | none => CreateResult.reject 500 "Invalid UNIT_AMOUNT env var (must be cents, e.g. 9900)."
            | some amount =>
              if amount < 50 then
                CreateResult.reject 500 "Invalid UNIT_AMOUNT env var (must be cents, e.g. 9900)."
              else
                CreateResult.checkout (base ++
                  [("line_items[0][price_data][currency]", toLowerStr (strOr env.currencyRaw "usd")),
                   ("line_items[0][price_data][unit_amount]", toString amount),
                   ("line_items[0][price_data][product_data][name]", strOr env.productName "VINvoyant Intake"),
                   ("line_items[0][price_data][product_data][description]", strOr env.productDescription "Concierge Vehicle Intelligence Intake"),
                   ("line_items[0][quantity]", "1")])

/- ------------------------------------------------------------------ -/
/- Session fetcher (part_000) and paid-confirmation relay (part_001)   -/
/- ------------------------------------------------------------------ -/

/-- A checkout session as returned by the payments API; `none` = field
absent in the JSON object. -/
structure Session where
  id : Option String := none
  status : Option String := none
  paymentStatus : Option String := none
  metadataRid : Option String := none
  clientReferenceId : Option String := none
  deriving Repr, DecidableEq

/-- Outcome of `fetchCheckoutSession`: either a non-ok upstream response
(status plus the upstream error message, if any) or the session object. -/
inductive FetchOutcome where
  | err (status : Nat) (errMsg : Option String)
  | ok (session : Session)
  deriving Repr, DecidableEq

/-- JSON body accepted by the session fetcher's POST fallback. -/
structure FetchPayload where
  session_id : Option String := none
  sessionId : Option String := none
  deriving Repr, DecidableEq

/-- An inbound session-fetch request: method, the `session_id` query
parameter, and the `JSON.parse` outcome of the body (`none` = parse
threw, swallowed by the source's empty catch). -/
structure FetchEvent where
  httpMethod : String
  qpSessionId : Option String := none
  body : Option FetchPayload := none
  deriving Repr, DecidableEq

/-- Response of the session fetcher. -/
structure FetcherResult where
  statusCode : Nat
  errorMsg : Option String := none
  paid : Option Bool := none
  sessionIdOut : Option String := none
  rid : Option String := none
  statusOut : Option String := none
  paymentStatusOut : Option String := none
  deriving Repr, DecidableEq

/-- The session fetcher (first handler of `src/unnamed/part_000`).  The
payments-API response is the oracle input `fetchRes`; it is consulted
only when the handler reaches the fetch. -/
def sessionFetcher (secretKey : Option String) (ev : FetchEvent) (fetchRes : FetchOutcome) : FetcherResult :=
  if ev.httpMethod ≠ "GET" ∧ ev.httpMethod ≠ "POST" then
    { statusCode := 405, errorMsg := some "Method Not Allowed" }
  else
    match truthy secretKey with
    | none => { statusCode := 500, errorMsg := some "Missing STRIPE_SECRET_KEY in environment variables." }
    | some _ =>
      let sid0 := trimStr (strOr ev.qpSessionId "")
      let sid :=
        if sid0 = "" ∧ ev.httpMethod = "POST" then
          match ev.body with
          | some p => trimStr (strOr p.session_id (strOr p.sessionId ""))
          | none => sid0
        else sid0
      if sid = "" then { statusCode := 400, errorMsg := some "Missing session_id." }
      else
        match fetchRes with
        | FetchOutcome.err status msg =>
          { statusCode := status, errorMsg := some (strOr msg "Stripe error") }
        | FetchOutcome.ok session =>
          { statusCode := 200
            paid := some (decide (session.paymentStatus = some "paid"))
            sessionIdOut := some (strOr session.id sid)
            rid := some (strOr session.metadataRid (strOr session.clientReferenceId ""))
            statusOut := session.status
            paymentStatusOut := session.paymentStatus }

/-- JSON body accepted by the paid-confirmation relay. -/
structure RelayPayload where
  session_id : Option String := none
  sessionId : Option String := none
  request_id : Option String := none
  requestId : Option String := none
  source : Option String := none
  name : Option String := none
  email : Option String := none
  vin : Option String := none
  goal : Option String := none
  service_level : Option String := none
  serviceLevel : Option String := none
  vehicle_tier : Option String := none
  vehicleTier : Option String := none
  symptoms : Option String := none
  dtc_codes : Option String := none
  evidence_links : Option String := none
  deliverables : Option (List String) := none
  deriving Repr, DecidableEq

/-- An inbound relay request; `body` is the `JSON.parse` outcome of
`event.body || "{}"` (`none` = the parse threw). -/
structure RelayEvent where
  httpMethod : String
  headers : Headers
  body : Option RelayPayload
  deriving Repr, DecidableEq

/-- Environment variables read by the relay. -/
structure RelayEnv where
  stripeSecretKey : Option String := none
  url : Option String := none
  deployPrimeUrl : Option String := none

/-- Response of the relay, plus the form post it forwarded to the
form-intake sink, if any (`none` = no call to the sink was issued). -/
structure RelayResult where
  statusCode : Nat
  errorMsg : Option String := none
  okRid : Option String := none
  formPost : Option (List (String × String)) := none
  deriving Repr, DecidableEq

/-- Source `appendField`: skip absent values and values that are blank
after trimming; otherwise append the untrimmed value. -/
def appendField (params : List (String × String)) (key : String) (value : Option String) : List (String × String) :=
  match value with
  | none => params
  | some v => if trimStr v = "" then params else params ++ [(key, v)]

/-- The form parameters the relay builds for the form-intake sink. -/
def relayFormParams (payload : RelayPayload) (requestId sessionId : String) (session : Session) : List (String × String) :=
  let p := [("form-name", "vinvoyant_intake")]
  let p := appendField p "source" payload.source
  let p := appendField p "request_id" (some requestId)
  let p := appendField p "name" payload.name
  let p := appendField p "email" payload.email
  let p := appendField p "vin" payload.vin
  let p := appendField p "goal" payload.goal
  let p := appendField p "service_level" (jsOr payload.service_level payload.serviceLevel)
  let p := appendField p "vehicle_tier" (jsOr payload.vehicle_tier payload.vehicleTier)
  let p := appendField p "symptoms" payload.symptoms
  let p := appendField p "dtc_codes" payload.dtc_codes
  let p := appendField p "evidence_links" payload.evidence_links
  let p := (payload.deliverables.getD []).foldl (fun acc d => appendField acc "deliverables" (some d)) p
  let p := p ++ [("paid_confirmed", "true"), ("payment_reference", strOr session.id sessionId)]
  appendField p "session_id" (some (strOr session.id sessionId))

/-- The paid-confirmation relay (first handler of `src/unnamed/part_001`).
The payments-API response is the oracle input `fetchRes`. -/
def relayHandler (parseOrigin : String → Option String) (env : RelayEnv) (ev : RelayEvent) (fetchRes : FetchOutcome) : RelayResult :=
  if ev.httpMethod ≠ "POST" then
    { statusCode := 405, errorMsg := some "Method Not Allowed" }
  else
    match truthy env.stripeSecretKey with
    | none => { statusCode := 500, errorMsg := some "Missing STRIPE_SECRET_KEY in environment variables." }
    | some _ =>
      let payload := ev.body.getD {}
      let sessionId := trimStr (strOr payload.session_id (strOr payload.sessionId ""))
      let requestId := trimStr (strOr payload.request_id (strOr payload.requestId ""))
      if sessionId = "" then { statusCode := 400, errorMsg := some "Missing session_id." }
      else if requestId = "" then { statusCode := 400, errorMsg := some "Missing request_id." }
      else
        match fetchRes with
        | FetchOutcome.err status msg =>
          { statusCode := status, errorMsg := some (strOr msg "Stripe error") }
        | FetchOutcome.ok session =>
          if session.paymentStatus ≠ some "paid" then
            { statusCode := 402, errorMsg := some "Payment not verified." }
          else
            let rid := strOr session.metadataRid (strOr session.clientReferenceId "")
            if rid ≠ "" ∧ rid ≠ requestId then
              { statusCode := 400, errorMsg := some "Request ID did not match the paid session." }
            else
              match jsOr env.url (jsOr env.deployPrimeUrl (getOrigin parseOrigin ev.headers)) with
              | none => { statusCode := 200, okRid := some requestId }
              | some _ =>
                { statusCode := 200, okRid := some requestId
                  formPost := some (relayFormParams payload requestId sessionId session) }

/- ------------------------------------------------------------------ -/
/- Theorems: DNS upsert tool                                           -/
/- ------------------------------------------------------------------ -/

theorem matchesOf_set_value (existing : List ExistingRecord) (d : DesiredRecord) (v : String) :
    matchesOf existing { d with value := v } = matchesOf existing d := rfl

/-- C6: if, for each desired record of the run, some existing record of
the zone already matches its (type, hostname) and value, the run performs
no create or delete API call and the process exits with code 0. -/
theorem dns_rerun_correct_is_noop (force : Bool) (existingC existingT : List ExistingRecord)
    (cname txt : DesiredRecord)
    (hc : hasValueMatch existingC cname = true)
    (ht : hasValueMatch existingT txt = true) :
    mutatingCalls (runUpsert force existingC existingT cname txt) = [] ∧
    (runUpsert force existingC existingT cname txt).exit = 0 := by
  constructor <;> simp [runUpsert, upsertRecord, hc, ht, mutatingCalls, isMutating]

theorem dns_rerun_correct_is_noop_witness :
    hasValueMatch [⟨"r1", "CNAME", "pay", "hosted-checkout.stripecdn.com"⟩]
      ⟨"CNAME", "pay", "hosted-checkout.stripecdn.com", 300⟩ = true ∧
    hasValueMatch [⟨"r2", "TXT", "_acme-challenge.pay", "token"⟩]
      ⟨"TXT", "_acme-challenge.pay", "token", 300⟩ = true ∧
    (mutatingCalls (runUpsert false
        [⟨"r1", "CNAME", "pay", "hosted-checkout.stripecdn.com"⟩]
        [⟨"r2", "TXT", "_acme-challenge.pay", "token"⟩]
        ⟨"CNAME", "pay", "hosted-checkout.stripecdn.com", 300⟩
        ⟨"TXT", "_acme-challenge.pay", "token", 300⟩) = [] ∧
      (runUpsert false
        [⟨"r1", "CNAME", "pay", "hosted-checkout.stripecdn.com"⟩]
        [⟨"r2", "TXT", "_acme-challenge.pay", "token"⟩]
        ⟨"CNAME", "pay", "hosted-checkout.stripecdn.com", 300⟩
        ⟨"TXT", "_acme-challenge.pay", "token", 300⟩).exit = 0) :=
  ⟨by decide, by decide,
    dns_rerun_correct_is_noop false
      [⟨"r1", "CNAME", "pay", "hosted-checkout.stripecdn.com"⟩]
      [⟨"r2", "TXT", "_acme-challenge.pay", "token"⟩]
      ⟨"CNAME", "pay", "hosted-checkout.stripecdn.com", 300⟩
      ⟨"TXT", "_acme-challenge.pay", "token", 300⟩ (by decide) (by decide)⟩

/-- C2 (counterexample): a run in which the CNAME record conflicts (a
(type, hostname) match exists with a different value) and the force flag
is unset exits with code 2, yet still issues a mutating call: the TXT
record, absent from the zone, is created after the conflict was
reported. -/
theorem dns_conflict_noforce_counterexample :
    matchesOf [⟨"id1", "CNAME", "pay", "other.example.com"⟩]
      ⟨"CNAME", "pay", "hosted-checkout.stripecdn.com", 300⟩ ≠ [] ∧
    hasValueMatch [⟨"id1", "CNAME", "pay", "other.example.com"⟩]
      ⟨"CNAME", "pay", "hosted-checkout.stripecdn.com", 300⟩ = false ∧
    (runUpsert false
      [⟨"id1", "CNAME", "pay", "other.example.com"⟩]
      [⟨"id1", "CNAME", "pay", "other.example.com"⟩]
      ⟨"CNAME", "pay", "hosted-checkout.stripecdn.com", 300⟩
      ⟨"TXT", "_acme-challenge.pay", "token", 300⟩).exit = 2 ∧
    mutatingCalls (runUpsert false
      [⟨"id1", "CNAME", "pay", "other.example.com"⟩]
      [⟨"id1", "CNAME", "pay", "other.example.com"⟩]
      ⟨"CNAME", "pay", "hosted-checkout.stripecdn.com", 300⟩
      ⟨"TXT", "_acme-challenge.pay", "token", 300⟩) =
      [ApiCall.createRecord ⟨"TXT", "_acme-challenge.pay", "token", 300⟩] := by
  refine ⟨by decide, by decide, by decide, by decide⟩

/-- C2 (amended): if EVERY desired record of the run has a (type,
hostname) match among the fetched records and none of its matches has
the desired value, and force is unset, the process exits with code 2 and
the run issues no mutating API call.  (A conflict on one record does not
stop the tool from creating the other record, hence the restriction to
runs in which each desired record conflicts.) -/
theorem dns_conflict_noforce_blocks (existingC existingT : List ExistingRecord)
    (cname txt : DesiredRecord)
    (hc1 : matchesOf existingC cname ≠ []) (hc2 : hasValueMatch existingC cname = false)
    (ht1 : matchesOf existingT txt ≠ []) (ht2 : hasValueMatch existingT txt = false) :
    (runUpsert false existingC existingT cname txt).exit = 2 ∧
    mutatingCalls (runUpsert false existingC existingT cname txt) = [] := by
  have hc1' : (matchesOf existingC cname).length > 0 := List.length_pos.mpr hc1
  have ht1' : (matchesOf existingT txt).length > 0 := List.length_pos.mpr ht1
  constructor <;>
    simp [runUpsert, upsertRecord, hc2, ht2, hc1', ht1', mutatingCalls, isMutating]

theorem dns_conflict_noforce_blocks_witness :
    matchesOf [⟨"id1", "CNAME", "pay", "other.example.com"⟩]
      ⟨"CNAME", "pay", "hosted-checkout.stripecdn.com", 300⟩ ≠ [] ∧
    hasValueMatch [⟨"id1", "CNAME", "pay", "other.example.com"⟩]
      ⟨"CNAME", "pay", "hosted-checkout.stripecdn.com", 300⟩ = false ∧
    matchesOf [⟨"id2", "TXT", "_acme-challenge.pay", "old-token"⟩]
      ⟨"TXT", "_acme-challenge.pay", "new-token", 300⟩ ≠ [] ∧
    hasValueMatch [⟨"id2", "TXT", "_acme-challenge.pay", "old-token"⟩]
      ⟨"TXT", "_acme-challenge.pay", "new-token", 300⟩ = false ∧
    ((runUpsert false
        [⟨"id1", "CNAME", "pay", "other.example.com"⟩]
        [⟨"id2", "TXT", "_acme-challenge.pay", "old-token"⟩]
        ⟨"CNAME", "pay", "hosted-checkout.stripecdn.com", 300⟩
        ⟨"TXT", "_acme-challenge.pay", "new-token", 300⟩).exit = 2 ∧
      mutatingCalls (runUpsert false
        [⟨"id1", "CNAME", "pay", "other.example.com"⟩]
        [⟨"id2", "TXT", "_acme-challenge.pay", "old-token"⟩]
        ⟨"CNAME", "pay", "hosted-checkout.stripecdn.com", 300⟩
        ⟨"TXT", "_acme-challenge.pay", "new-token", 300⟩) = []) :=
  ⟨by decide, by decide, by decide, by decide,
    dns_conflict_noforce_blocks
      [⟨"id1", "CNAME", "pay", "other.example.com"⟩]
      [⟨"id2", "TXT", "_acme-challenge.pay", "old-token"⟩]
      ⟨"CNAME", "pay", "hosted-checkout.stripecdn.com", 300⟩
      ⟨"TXT", "_acme-challenge.pay", "new-token", 300⟩
      (by decide) (by decide) (by decide) (by decide)⟩

/-- C7: with the force flag set, when the fetched records contain (type,
hostname) matches for the desired record but none with the desired value,
`upsertRecord` deletes exactly the matching records — in order, and no
others — and then creates the desired record.  (`upsertRecord` is invoked
once per desired record by `main`.) -/
theorem dns_force_replaces_exactly (existing : List ExistingRecord) (d : DesiredRecord)
    (h1 : matchesOf existing d ≠ []) (h2 : hasValueMatch existing d = false) :
    (upsertRecord existing d true).calls =
      ApiCall.listRecords ::
        ((matchesOf existing d).map (fun r => ApiCall.deleteRecord r.id) ++ [ApiCall.createRecord d]) := by
  have h1' : (matchesOf existing d).length > 0 := List.length_pos.mpr h1
  simp [upsertRecord, h2, h1']

theorem dns_force_replaces_exactly_witness :
    matchesOf [⟨"id1", "CNAME", "pay", "other.example.com"⟩, ⟨"id2", "A", "pay", "1.2.3.4"⟩,
        ⟨"id3", "CNAME", "pay", "second.example.com"⟩]
      ⟨"CNAME", "pay", "hosted-checkout.stripecdn.com", 300⟩ ≠ [] ∧
    hasValueMatch [⟨"id1", "CNAME", "pay", "other.example.com"⟩, ⟨"id2", "A", "pay", "1.2.3.4"⟩,
        ⟨"id3", "CNAME", "pay", "second.example.com"⟩]
      ⟨"CNAME", "pay", "hosted-checkout.stripecdn.com", 300⟩ = false ∧
    (upsertRecord [⟨"id1", "CNAME", "pay", "other.example.com"⟩, ⟨"id2", "A", "pay", "1.2.3.4"⟩,
        ⟨"id3", "CNAME", "pay", "second.example.com"⟩]
      ⟨"CNAME", "pay", "hosted-checkout.stripecdn.com", 300⟩ true).calls =
      ApiCall.listRecords ::
        ((matchesOf [⟨"id1", "CNAME", "pay", "other.example.com"⟩, ⟨"id2", "A", "pay", "1.2.3.4"⟩,
            ⟨"id3", "CNAME", "pay", "second.example.com"⟩]
          ⟨"CNAME", "pay", "hosted-checkout.stripecdn.com", 300⟩).map (fun r => ApiCall.deleteRecord r.id) ++
          [ApiCall.createRecord ⟨"CNAME", "pay", "hosted-checkout.stripecdn.com", 300⟩]) :=
  ⟨by decide, by decide,
    dns_force_replaces_exactly
      [⟨"id1", "CNAME", "pay", "other.example.com"⟩, ⟨"id2", "A", "pay", "1.2.3.4"⟩,
        ⟨"id3", "CNAME", "pay", "second.example.com"⟩]
      ⟨"CNAME", "pay", "hosted-checkout.stripecdn.com", 300⟩ (by decide) (by decide)⟩

/-- C9 (counterexample): two runs that differ only in the desired TXT
value need not produce the same message sequence: with an existing TXT
record holding value "tokenA", desiring "tokenA" logs an "OK" line while
desiring "tokenB" logs nothing (and reports a conflict on stderr), so the
tool's output is not identical across the two runs. -/
theorem dns_txt_logs_differ_counterexample :
    (runUpsert false
      [⟨"t1", "TXT", "_acme-challenge.pay", "tokenA"⟩]
      [⟨"t1", "TXT", "_acme-challenge.pay", "tokenA"⟩]
      ⟨"CNAME", "pay", "hosted-checkout.stripecdn.com", 300⟩
      ⟨"TXT", "_acme-challenge.pay", "tokenA", 300⟩).logs ≠
    (runUpsert false
      [⟨"t1", "TXT", "_acme-challenge.pay", "tokenA"⟩]
      [⟨"t1", "TXT", "_acme-challenge.pay", "tokenA"⟩]
      ⟨"CNAME", "pay", "hosted-checkout.stripecdn.com", 300⟩
      ⟨"TXT", "_acme-challenge.pay", "tokenB", 300⟩).logs := by decide

/-- C9 (amended): the TXT value never appears in any message the tool
prints — every message shows the redaction placeholder instead — so two
runs differing only in the TXT value produce identical stdout and stderr
whenever the already-set check resolves the same way in both (the one
branch bit that legitimately depends on the value). -/
theorem dns_txt_value_never_logged (force : Bool) (existingC existingT : List ExistingRecord)
    (cname t : DesiredRecord) (v : String)
    (htype : t.type = "TXT")
    (hbr : hasValueMatch existingT { t with value := v } = hasValueMatch existingT t) :
    (runUpsert force existingC existingT cname { t with value := v }).logs =
      (runUpsert force existingC existingT cname t).logs ∧
    (runUpsert force existingC existingT cname { t with value := v }).errs =
      (runUpsert force existingC existingT cname t).errs := by
  have hm : matchesOf existingT { t with value := v } = matchesOf existingT t :=
    matchesOf_set_value existingT t v
  unfold runUpsert upsertRecord
  rw [hbr, hm]
  cases hv : hasValueMatch existingT t
  · by_cases h1 : 0 < (matchesOf existingT t).length ∧ force = false
    · simp [redactValue, htype, hv, h1]
    · by_cases h2 : 0 < (matchesOf existingT t).length ∧ force = true <;>
        simp [redactValue, htype, hv, h1, h2]
  · simp [redactValue, htype, hv]

theorem dns_txt_value_never_logged_witness :
    (⟨"TXT", "_acme-challenge.pay", "tokenB", 300⟩ : DesiredRecord).type = "TXT" ∧
    hasValueMatch [⟨"t1", "TXT", "_acme-challenge.pay", "tokenA"⟩]
      { (⟨"TXT", "_acme-challenge.pay", "tokenB", 300⟩ : DesiredRecord) with value := "tokenC" } =
      hasValueMatch [⟨"t1", "TXT", "_acme-challenge.pay", "tokenA"⟩]
        ⟨"TXT", "_acme-challenge.pay", "tokenB", 300⟩ ∧
    ((runUpsert true [] [⟨"t1", "TXT", "_acme-challenge.pay", "tokenA"⟩]
        ⟨"CNAME", "pay", "hosted-checkout.stripecdn.com", 300⟩
        { (⟨"TXT", "_acme-challenge.pay", "tokenB", 300⟩ : DesiredRecord) with value := "tokenC" }).logs =
      (runUpsert true [] [⟨"t1", "TXT", "_acme-challenge.pay", "tokenA"⟩]
        ⟨"CNAME", "pay", "hosted-checkout.stripecdn.com", 300⟩
        ⟨"TXT", "_acme-challenge.pay", "tokenB", 300⟩).logs ∧
      (runUpsert true [] [⟨"t1", "TXT", "_acme-challenge.pay", "tokenA"⟩]
        ⟨"CNAME", "pay", "hosted-checkout.stripecdn.com", 300⟩
        { (⟨"TXT", "_acme-challenge.pay", "tokenB", 300⟩ : DesiredRecord) with value := "tokenC" }).errs =
      (runUpsert true [] [⟨"t1", "TXT", "_acme-challenge.pay", "tokenA"⟩]
        ⟨"CNAME", "pay", "hosted-checkout.stripecdn.com", 300⟩
        ⟨"TXT", "_acme-challenge.pay", "tokenB", 300⟩).errs) :=
  ⟨rfl, by decide,
    dns_txt_value_never_logged true [] [⟨"t1", "TXT", "_acme-challenge.pay", "tokenA"⟩]
      ⟨"CNAME", "pay", "hosted-checkout.stripecdn.com", 300⟩
      ⟨"TXT", "_acme-challenge.pay", "tokenB", 300⟩ "tokenC" rfl (by decide)⟩

/- ------------------------------------------------------------------ -/
/- Theorems: session creators                                          -/
/- ------------------------------------------------------------------ -/

theorem validRid_ne_empty (s : String) (h : validRid s = true) : s ≠ "" := by
  intro he
  rw [he] at h
  exact absurd h (by decide)

theorem PRICING_CENTS_props (t sv : String) (a : Nat) (h : PRICING_CENTS t sv = some a) :
    t ≠ "" ∧ sv ≠ "" ∧ a ≠ 0 := by
  unfold PRICING_CENTS at h
  repeat' split at h
  all_goals simp_all
  all_goals omega

/-- C5: a request whose request ID (after string coercion and trimming)
does not match the pattern VV-####-##### is rejected by both
session-creation handlers with a 400-class response before any outbound
API call (`rejectStatus` is `some` exactly on the responses returned
before the handler's outbound call). -/
theorem creators_invalid_rid_rejected (parseOrigin : String → Option String)
    (envT envL : CreatorEnv) (ev : CreatorEvent) (sT sL : String)
    (hm : ev.httpMethod = "POST")
    (hsT : truthy envT.stripeSecretKey = some sT)
    (hsL : truthy envL.stripeSecretKey = some sL)
    (hr : validRid (trimStr (strOr (ev.body.getD {}).rid "")) = false) :
    rejectStatus (tieredHandler parseOrigin envT ev) = some 400 ∧
    rejectStatus (legacyHandler parseOrigin envL ev) = some 400 := by
  constructor
  · simp only [tieredHandler, hm, hsT]
    cases ho : jsOr (getOrigin parseOrigin ev.headers) (jsOr envT.url envT.deployPrimeUrl) <;>
      simp [ho, hr, rejectStatus]
  · simp only [legacyHandler, hm, hsL]
    cases ho : jsOr (getOrigin parseOrigin ev.headers) (jsOr envL.url envL.deployPrimeUrl) <;>
      simp [ho, hr, rejectStatus]

theorem creators_invalid_rid_rejected_witness :
    validRid (trimStr (strOr (((⟨"POST", {}, some { rid := some "VV-24-42" }⟩ : CreatorEvent).body.getD {}).rid) "")) = false ∧
    (rejectStatus (tieredHandler (fun _ => none)
        { stripeSecretKey := some "sk_a", url := some "https://vinvoyant.com" }
        ⟨"POST", {}, some { rid := some "VV-24-42" }⟩) = some 400 ∧
      rejectStatus (legacyHandler (fun _ => none)
        { stripeSecretKey := some "sk_b", url := some "https://vinvoyant.com" }
        ⟨"POST", {}, some { rid := some "VV-24-42" }⟩) = some 400) :=
  ⟨by decide,
    creators_invalid_rid_rejected (fun _ => none)
      { stripeSecretKey := some "sk_a", url := some "https://vinvoyant.com" }
      { stripeSecretKey := some "sk_b", url := some "https://vinvoyant.com" }
      ⟨"POST", {}, some { rid := some "VV-24-42" }⟩ "sk_a" "sk_b" rfl rfl rfl (by decide)⟩

/-- C3: with tiered pricing enabled, no price-ID override map configured,
and a (vehicle tier, service level) pair present in the static table, the
tiered session creator issues an outbound checkout request whose line
item carries inline price data: the unit amount is the table's cents
value and the currency is usd. -/
theorem tiered_inline_price_from_table (parseOrigin : String → Option String)
    (env : CreatorEnv) (ev : CreatorEvent) (s origin : String) (a : Nat)
    (hm : ev.httpMethod = "POST")
    (hs : truthy env.stripeSecretKey = some s)
    (hen : isDisabledWord (strOr env.enableTieredRaw "") = false)
    (hmap : env.tieredPriceIds = none)
    (ho : jsOr (getOrigin parseOrigin ev.headers) (jsOr env.url env.deployPrimeUrl) = some origin)
    (hr : validRid (trimStr (strOr (ev.body.getD {}).rid "")) = true)
    (hp : PRICING_CENTS
            (trimStr (strOr (ev.body.getD {}).vehicle_tier (strOr (ev.body.getD {}).vehicleTier "")))
            (trimStr (strOr (ev.body.getD {}).service_level (strOr (ev.body.getD {}).serviceLevel ""))) = some a) :
    ∃ ps, tieredHandler parseOrigin env ev = CreateResult.checkout ps ∧
      ("line_items[0][price_data][unit_amount]", toString a) ∈ ps ∧
      ("line_items[0][price_data][currency]", "usd") ∈ ps := by
  obtain ⟨htk, hsk, ha⟩ := PRICING_CENTS_props _ _ _ hp
  have hrne := validRid_ne_empty _ hr
  simp only [tieredHandler, hm, hs, ho, hmap, hen, hp]
  simp [hr, hrne, htk, hsk, ha]

theorem tiered_inline_price_from_table_witness :
    validRid (trimStr (strOr (((⟨"POST", {}, some { rid := some "VV-2024-00042", service_level := some "brief_remote", vehicle_tier := some "tier_a" }⟩ : CreatorEvent).body.getD {}).rid) "")) = true ∧
    PRICING_CENTS "tier_a" "brief_remote" = some 12900 ∧
    (∃ ps, tieredHandler (fun _ => none)
        { stripeSecretKey := some "sk_test_x", url := some "https://vinvoyant.com" }
        ⟨"POST", {}, some { rid := some "VV-2024-00042", service_level := some "brief_remote", vehicle_tier := some "tier_a" }⟩ = CreateResult.checkout ps ∧
      ("line_items[0][price_data][unit_amount]", toString 12900) ∈ ps ∧
      ("line_items[0][price_data][currency]", "usd") ∈ ps) :=
  ⟨by decide, rfl,
    tiered_inline_price_from_table (fun _ => none)
      { stripeSecretKey := some "sk_test_x", url := some "https://vinvoyant.com" }
      ⟨"POST", {}, some { rid := some "VV-2024-00042", service_level := some "brief_remote", vehicle_tier := some "tier_a" }⟩
      "sk_test_x" "https://vinvoyant.com" 12900 rfl rfl rfl rfl rfl (by decide) rfl⟩

/- ------------------------------------------------------------------ -/
/- Theorems: paid-confirmation relay and session fetcher               -/
/- ------------------------------------------------------------------ -/

/-- C1: for a paid session whose stored tracking ID (the metadata rid,
falling back to the client reference) exists and differs from the
caller-supplied request ID, the relay returns 400 and forwards nothing to
the form sink. -/
theorem relay_rid_mismatch_rejected (parseOrigin : String → Option String)
    (env : RelayEnv) (ev : RelayEvent) (session : Session) (s : String)
    (hm : ev.httpMethod = "POST")
    (hs : truthy env.stripeSecretKey = some s)
    (hsid : trimStr (strOr (ev.body.getD {}).session_id (strOr (ev.body.getD {}).sessionId "")) ≠ "")
    (hreq : trimStr (strOr (ev.body.getD {}).request_id (strOr (ev.body.getD {}).requestId "")) ≠ "")
    (hpaid : session.paymentStatus = some "paid")
    (hstored : strOr session.metadataRid (strOr session.clientReferenceId "") ≠ "")
    (hmis : strOr session.metadataRid (strOr session.clientReferenceId "") ≠
      trimStr (strOr (ev.body.getD {}).request_id (strOr (ev.body.getD {}).requestId ""))) :
    relayHandler parseOrigin env ev (FetchOutcome.ok session) =
      { statusCode := 400, errorMsg := some "Request ID did not match the paid session.",
        okRid := none, formPost := none } := by
  simp only [relayHandler, hm, hs]
  simp [hsid, hreq, hpaid, hstored, hmis]

theorem relay_rid_mismatch_rejected_witness :
    trimStr (strOr (((⟨"POST", {}, some { session_id := some "cs_123", request_id := some "VV-2024-00099" }⟩ : RelayEvent).body.getD {}).session_id) (strOr none "")) ≠ "" ∧
    ({ paymentStatus := some "paid", metadataRid := some "VV-2024-00042" } : Session).paymentStatus = some "paid" ∧
    strOr ({ paymentStatus := some "paid", metadataRid := some "VV-2024-00042" } : Session).metadataRid (strOr none "") ≠ "" ∧
    relayHandler (fun _ => none) { stripeSecretKey := some "sk", url := some "https://vinvoyant.com" }
      ⟨"POST", {}, some { session_id := some "cs_123", request_id := some "VV-2024-00099" }⟩
      (FetchOutcome.ok { paymentStatus := some "paid", metadataRid := some "VV-2024-00042" }) =
      { statusCode := 400, errorMsg := some "Request ID did not match the paid session.",
        okRid := none, formPost := none } :=
  ⟨by decide, rfl, by decide,
    relay_rid_mismatch_rejected (fun _ => none)
      { stripeSecretKey := some "sk", url := some "https://vinvoyant.com" }
      ⟨"POST", {}, some { session_id := some "cs_123", request_id := some "VV-2024-00099" }⟩
      { paymentStatus := some "paid", metadataRid := some "VV-2024-00042" } "sk"
      rfl rfl (by decide) (by decide) rfl (by decide) (by decide)⟩

/-- C4: for a fetched session whose payment_status is not "paid", the
relay responds 402 and issues no call to the form-intake sink. -/
theorem relay_unpaid_rejected (parseOrigin : String → Option String)
    (env : RelayEnv) (ev : RelayEvent) (session : Session) (s : String)
    (hm : ev.httpMethod = "POST")
    (hs : truthy env.stripeSecretKey = some s)
    (hsid : trimStr (strOr (ev.body.getD {}).session_id (strOr (ev.body.getD {}).sessionId "")) ≠ "")
    (hreq : trimStr (strOr (ev.body.getD {}).request_id (strOr (ev.body.getD {}).requestId "")) ≠ "")
    (hpaid : session.paymentStatus ≠ some "paid") :
    relayHandler parseOrigin env ev (FetchOutcome.ok session) =
      { statusCode := 402, errorMsg := some "Payment not verified.",
        okRid := none, formPost := none } := by
  simp only [relayHandler, hm, hs]
  simp [hsid, hreq, hpaid]

theorem relay_unpaid_rejected_witness :
    trimStr (strOr (((⟨"POST", {}, some { session_id := some "cs_123", request_id := some "VV-2024-00042" }⟩ : RelayEvent).body.getD {}).session_id) (strOr none "")) ≠ "" ∧
    ({ paymentStatus := some "unpaid", metadataRid := some "VV-2024-00042" } : Session).paymentStatus ≠ some "paid" ∧
    relayHandler (fun _ => none) { stripeSecretKey := some "sk", url := some "https://vinvoyant.com" }
      ⟨"POST", {}, some { session_id := some "cs_123", request_id := some "VV-2024-00042" }⟩
      (FetchOutcome.ok { paymentStatus := some "unpaid", metadataRid := some "VV-2024-00042" }) =
      { statusCode := 402, errorMsg := some "Payment not verified.",
        okRid := none, formPost := none } :=
  ⟨by decide, by decide,
    relay_unpaid_rejected (fun _ => none)
      { stripeSecretKey := some "sk", url := some "https://vinvoyant.com" }
      ⟨"POST", {}, some { session_id := some "cs_123", request_id := some "VV-2024-00042" }⟩
      { paymentStatus := some "unpaid", metadataRid := some "VV-2024-00042" } "sk"
      rfl rfl (by decide) (by decide) (by decide)⟩

/-- C8: the session fetcher's returned paid flag is true exactly when the
session's payment_status equals "paid", and the relay's payment gate
responds 402 exactly when it does not — any other value yields paid =
false, respectively rejection. -/
theorem paid_iff_payment_status (parseOrigin : String → Option String)
    (secretF : Option String) (envR : RelayEnv)
    (evF : FetchEvent) (evR : RelayEvent) (session : Session) (sF sR : String)
    (hmF : evF.httpMethod = "GET")
    (hsF : truthy secretF = some sF)
    (hqF : trimStr (strOr evF.qpSessionId "") ≠ "")
    (hmR : evR.httpMethod = "POST")
    (hsR : truthy envR.stripeSecretKey = some sR)
    (hsid : trimStr (strOr (evR.body.getD {}).session_id (strOr (evR.body.getD {}).sessionId "")) ≠ "")
    (hreq : trimStr (strOr (evR.body.getD {}).request_id (strOr (evR.body.getD {}).requestId "")) ≠ "") :
    ((sessionFetcher secretF evF (FetchOutcome.ok session)).paid = some true ↔
      session.paymentStatus = some "paid") ∧
    ((relayHandler parseOrigin envR evR (FetchOutcome.ok session)).statusCode = 402 ↔
      session.paymentStatus ≠ some "paid") := by
  constructor
  · simp only [sessionFetcher, hmF, hsF]
    simp [hqF]
  · simp only [relayHandler, hmR, hsR]
    by_cases hp : session.paymentStatus = some "paid"
    · simp only [hsid, hreq, hp]
      simp only [ne_eq, not_true_eq_false, if_false, reduceIte]
      constructor
      · intro h
        exfalso
        revert h
        split
        · simp
        · rcases ho : jsOr envR.url (jsOr envR.deployPrimeUrl (getOrigin parseOrigin evR.headers)) with _ | o <;>
            simp [ho]
      · intro h
        exact h.elim
    · simp [hsid, hreq, hp]

theorem paid_iff_payment_status_witness :
    trimStr (strOr (some "cs_123") "") ≠ "" ∧
    trimStr (strOr (((⟨"POST", {}, some { session_id := some "cs_123", request_id := some "VV-2024-00042" }⟩ : RelayEvent).body.getD {}).session_id) (strOr none "")) ≠ "" ∧
    (((sessionFetcher (some "sk") ⟨"GET", some "cs_123", none⟩
        (FetchOutcome.ok { paymentStatus := some "paid" })).paid = some true ↔
      ({ paymentStatus := some "paid" } : Session).paymentStatus = some "paid") ∧
      ((relayHandler (fun _ => none) { stripeSecretKey := some "sk" }
          ⟨"POST", {}, some { session_id := some "cs_123", request_id := some "VV-2024-00042" }⟩
          (FetchOutcome.ok { paymentStatus := some "paid" })).statusCode = 402 ↔
        ({ paymentStatus := some "paid" } : Session).paymentStatus ≠ some "paid")) :=
  ⟨by decide, by decide,
    paid_iff_payment_status (fun _ => none) (some "sk") { stripeSecretKey := some "sk" }
      ⟨"GET", some "cs_123", none⟩
      ⟨"POST", {}, some { session_id := some "cs_123", request_id := some "VV-2024-00042" }⟩
      { paymentStatus := some "paid" } "sk" "sk"
      rfl rfl (by decide) rfl rfl (by decide) (by decide)⟩

/-- C10: a request body that is not valid JSON is treated as an empty
payload by all three body-reading handlers (the swallowed parse failure
never escapes), so — once the method and secret checks pass — the request
is rejected with a 400-class response by the ordinary per-field
validation before any outbound call: the creators return a pre-outbound
rejection, and the relay reports the missing session ID and posts nothing
to the form sink, whatever the payments-API oracle would have answered. -/
theorem invalid_json_body_as_empty (parseOrigin : String → Option String)
    (envT envL : CreatorEnv) (envR : RelayEnv) (hT hL hR : Headers)
    (fetchRes : FetchOutcome) (sT sL sR : String)
    (hsT : truthy envT.stripeSecretKey = some sT)
    (hsL : truthy envL.stripeSecretKey = some sL)
    (hsR : truthy envR.stripeSecretKey = some sR) :
    (tieredHandler parseOrigin envT ⟨"POST", hT, none⟩ =
        tieredHandler parseOrigin envT ⟨"POST", hT, some {}⟩ ∧
      rejectStatus (tieredHandler parseOrigin envT ⟨"POST", hT, none⟩) = some 400) ∧
    (legacyHandler parseOrigin envL ⟨"POST", hL, none⟩ =
        legacyHandler parseOrigin envL ⟨"POST", hL, some {}⟩ ∧
      rejectStatus (legacyHandler parseOrigin envL ⟨"POST", hL, none⟩) = some 400) ∧
    (relayHandler parseOrigin envR ⟨"POST", hR, none⟩ fetchRes =
        relayHandler parseOrigin envR ⟨"POST", hR, some {}⟩ fetchRes ∧
      (relayHandler parseOrigin envR ⟨"POST", hR, none⟩ fetchRes).statusCode = 400 ∧
      (relayHandler parseOrigin envR ⟨"POST", hR, none⟩ fetchRes).formPost = none) := by
  have hrid : trimStr (strOr (none : Option String) "") = "" := by decide
  have h0 : trimStr "" = "" := by decide
  refine ⟨⟨rfl, ?_⟩, ⟨rfl, ?_⟩, rfl, ?_, ?_⟩
  · simp only [tieredHandler, hsT]
    cases ho : jsOr (getOrigin parseOrigin hT) (jsOr envT.url envT.deployPrimeUrl) <;>
      simp [ho, hrid, h0, strOr, rejectStatus]
  · simp only [legacyHandler, hsL]
    cases ho : jsOr (getOrigin parseOrigin hL) (jsOr envL.url envL.deployPrimeUrl) <;>
      simp [ho, hrid, h0, strOr, rejectStatus]
  · simp only [relayHandler, hsR]
    simp [hrid, h0, strOr]
  · simp only [relayHandler, hsR]
    simp [hrid, h0, strOr]

theorem invalid_json_body_as_empty_witness :
    truthy (some "sk_a") = some "sk_a" ∧
    ((tieredHandler (fun _ => none) { stripeSecretKey := some "sk_a", url := some "https://vinvoyant.com" } ⟨"POST", {}, none⟩ =
        tieredHandler (fun _ => none) { stripeSecretKey := some "sk_a", url := some "https://vinvoyant.com" } ⟨"POST", {}, some {}⟩ ∧
      rejectStatus (tieredHandler (fun _ => none) { stripeSecretKey := some "sk_a", url := some "https://vinvoyant.com" } ⟨"POST", {}, none⟩) = some 400) ∧
    (legacyHandler (fun _ => none) { stripeSecretKey := some "sk_b", url := some "https://vinvoyant.com" } ⟨"POST", {}, none⟩ =
        legacyHandler (fun _ => none) { stripeSecretKey := some "sk_b", url := some "https://vinvoyant.com" } ⟨"POST", {}, some {}⟩ ∧
      rejectStatus (legacyHandler (fun _ => none) { stripeSecretKey := some "sk_b", url := some "https://vinvoyant.com" } ⟨"POST", {}, none⟩) = some 400) ∧
    (relayHandler (fun _ => none) { stripeSecretKey := some "sk_c" } ⟨"POST", {}, none⟩ (FetchOutcome.err 500 none) =
        relayHandler (fun _ => none) { stripeSecretKey := some "sk_c" } ⟨"POST", {}, some {}⟩ (FetchOutcome.err 500 none) ∧
      (relayHandler (fun _ => none) { stripeSecretKey := some "sk_c" } ⟨"POST", {}, none⟩ (FetchOutcome.err 500 none)).statusCode = 400 ∧
      (relayHandler (fun _ => none) { stripeSecretKey := some "sk_c" } ⟨"POST", {}, none⟩ (FetchOutcome.err 500 none)).formPost = none)) :=
  ⟨rfl,
    invalid_json_body_as_empty (fun _ => none)
      { stripeSecretKey := some "sk_a", url := some "https://vinvoyant.com" }
      { stripeSecretKey := some "sk_b", url := some "https://vinvoyant.com" }
      { stripeSecretKey := some "sk_c" } {} {} {} (FetchOutcome.err 500 none)
      "sk_a" "sk_b" "sk_c" rfl rfl rfl⟩
